import Mathlib

/-!
Verification development for the np_data_validation repository.

The definitions below are a shallow embedding of the Python sources
(`data_validation.py`, `strategies.py`): file records with their relationship
classifier, the CRC32 checksum engine, the session-key parser, the
shelve-backed checksum store, and the backup-resolution strategies.
External collaborators (filesystem, the store contract consumed by
`strategies.py`) are modelled explicitly; definitions whose doc comment
starts with `Modelled from the spec:` embed repository code that is not
present in the provided sources and follow the specification's words.
-/

set_option maxRecDepth 4000

namespace NpDataValidation

/-- Python's `str.lower()` for the ASCII paths and names this program
handles: lower-case every character. -/
def strLower (s : String) : String :=
  String.mk (s.data.map Char.toLower)

/-- Python's `str.upper()` for ASCII strings. -/
def strUpper (s : String) : String :=
  String.mk (s.data.map Char.toUpper)

/-- Relationship kinds between two file records, from the
`DataValidationFile.Match` IntFlag enum in `data_validation.py`. -/
inductive Match where
  | UNRELATED
  | UNKNOWN
  | SELF
  | SELF_NO_CHECKSUM
  | OTHER_NO_CHECKSUM
  | CHECKSUM_COLLISION
  | UNSYNCED_DATA
  | UNSYNCED_CHECKSUM
  | UNSYNCED_OR_CORRUPT_DATA
  | VALID_COPY_SAME_NAME
  | VALID_COPY_RENAMED
  deriving DecidableEq, Repr

/-- Integer value of each enum member, exactly as assigned in the source. -/
def Match.val : Match → Int
  | .UNRELATED => 0
  | .UNKNOWN => -1
  | .SELF => 5
  | .SELF_NO_CHECKSUM => 6
  | .OTHER_NO_CHECKSUM => 7
  | .CHECKSUM_COLLISION => 10
  | .UNSYNCED_DATA => 11
  | .UNSYNCED_CHECKSUM => 12
  | .UNSYNCED_OR_CORRUPT_DATA => 13
  | .VALID_COPY_SAME_NAME => 21
  | .VALID_COPY_RENAMED => 22

/-- A file record: the state a `DataValidationFile` object carries after
construction (path is already POSIX-normalised, `name` is the basename,
session id/folder were extracted from the path).  A missing checksum or a
missing size is `none`, matching Python's `None`. -/
structure DVFile where
  path : String
  name : String
  session_id : String
  session_folder : String
  size : Option Nat
  checksum : Option String
  deriving DecidableEq, Repr

/-- Embeds `DataValidationFile.__eq__`, translated branch by branch.  The Python
function can fall off the end of the nested invalid-copy branch and return
`None`; that case is `none` here (shown unreachable in
`classifyQ_isSome`). -/
def classifyQ (s o : DVFile) : Option Match :=
  if s.checksum ≠ none ∧ o.checksum ≠ none ∧ s.checksum = o.checksum ∧
      s.size = o.size ∧ strLower s.path = strLower o.path then
    some .SELF
  else if s.size = o.size ∧ strLower s.path = strLower o.path ∧
      s.checksum = none ∧ o.checksum ≠ none then
    some .SELF_NO_CHECKSUM
  else if s.size = o.size ∧ strLower s.path = strLower o.path ∧
      s.checksum ≠ none ∧ o.checksum = none then
    some .OTHER_NO_CHECKSUM
  else if s.checksum ≠ none ∧ o.checksum ≠ none ∧ s.checksum = o.checksum ∧
      s.size = o.size ∧ strLower s.name = strLower o.name ∧
      strLower s.path ≠ strLower o.path then
    some .VALID_COPY_SAME_NAME
  else if s.checksum ≠ none ∧ o.checksum ≠ none ∧ s.checksum = o.checksum ∧
      s.size = o.size ∧ strLower s.name ≠ strLower o.name ∧
      strLower s.path ≠ strLower o.path then
    some .VALID_COPY_RENAMED
  else if s.checksum ≠ none ∧ o.checksum ≠ none ∧
      strLower s.name = strLower o.name ∧ strLower s.path ≠ strLower o.path then
    (if s.size ≠ o.size ∧ s.checksum ≠ o.checksum then
      some .UNSYNCED_DATA
    else if s.size ≠ o.size ∧ s.checksum = o.checksum then
      some .UNSYNCED_CHECKSUM
    else if s.size = o.size ∧ s.checksum ≠ o.checksum then
      some .UNSYNCED_OR_CORRUPT_DATA
    else
      none)
  else if s.checksum ≠ none ∧ o.checksum ≠ none ∧ s.checksum = o.checksum ∧
      s.size ≠ o.size ∧ strLower s.name ≠ strLower o.name then
    some .CHECKSUM_COLLISION
  else if s.checksum ≠ none ∧ o.checksum ≠ none ∧ s.checksum ≠ o.checksum ∧
      s.size ≠ o.size ∧ strLower s.name ≠ strLower o.name then
    some .UNRELATED
  else
    some .UNKNOWN

/-- Total classifier.  The default is irrelevant: `classifyQ` never returns
`none` (lemma `classifyQ_isSome`). -/
def classify (s o : DVFile) : Match :=
  (classifyQ s o).getD .UNKNOWN

/-- The integer a Python `file == other` comparison evaluates to. -/
def fileEq (s o : DVFile) : Int :=
  (classify s o).val

/-- The decision structure of `classifyQ` as a pure function of the six
boolean comparisons it performs (checksum present on each side, checksum
equal, size equal, path equal, name equal).  Bridge for case analysis. -/
def ladderCode (ca cb ck sz pth nm : Bool) : Match :=
  if ca && cb && ck && sz && pth then .SELF
  else if sz && pth && !ca && cb then .SELF_NO_CHECKSUM
  else if sz && pth && ca && !cb then .OTHER_NO_CHECKSUM
  else if ca && cb && ck && sz && nm && !pth then .VALID_COPY_SAME_NAME
  else if ca && cb && ck && sz && !nm && !pth then .VALID_COPY_RENAMED
  else if ca && cb && nm && !pth then
    (if !sz && !ck then .UNSYNCED_DATA
    else if !sz && ck then .UNSYNCED_CHECKSUM
    else if sz && !ck then .UNSYNCED_OR_CORRUPT_DATA
    else .UNKNOWN)
  else if ca && cb && ck && !sz && !nm then .CHECKSUM_COLLISION
  else if ca && cb && !ck && !sz && !nm then .UNRELATED
  else .UNKNOWN

theorem classify_eq_ladderCode (a b : DVFile) :
    classify a b =
      ladderCode (decide (a.checksum ≠ none)) (decide (b.checksum ≠ none))
        (decide (a.checksum = b.checksum)) (decide (a.size = b.size))
        (decide (strLower a.path = strLower b.path))
        (decide (strLower a.name = strLower b.name)) := by
  by_cases h1 : a.checksum = none <;> by_cases h2 : b.checksum = none <;>
    by_cases h3 : a.checksum = b.checksum <;> by_cases h4 : a.size = b.size <;>
    by_cases h5 : strLower a.path = strLower b.path <;>
    by_cases h6 : strLower a.name = strLower b.name <;>
    simp [classify, classifyQ, ladderCode, h1, h2, h3, h4, h5, h6]

theorem classifyQ_isSome (a b : DVFile) : (classifyQ a b).isSome := by
  by_cases h1 : a.checksum = none <;> by_cases h2 : b.checksum = none <;>
    by_cases h3 : a.checksum = b.checksum <;> by_cases h4 : a.size = b.size <;>
    by_cases h5 : strLower a.path = strLower b.path <;>
    by_cases h6 : strLower a.name = strLower b.name <;>
    simp [classifyQ, h1, h2, h3, h4, h5, h6]

/-- The §4.2 decision table of the specification, read as a flat priority
ladder: rules checked in the table's listed order, first satisfied rule
wins.  Written from the spec's words, to be compared with `classify`. -/
def classifySpecLadder (s o : DVFile) : Match :=
  if s.checksum ≠ none ∧ o.checksum ≠ none ∧ s.checksum = o.checksum ∧
      s.size = o.size ∧ strLower s.path = strLower o.path then
    .SELF
  else if s.size = o.size ∧ strLower s.path = strLower o.path ∧
      s.checksum = none ∧ o.checksum ≠ none then
    .SELF_NO_CHECKSUM
  else if s.size = o.size ∧ strLower s.path = strLower o.path ∧
      s.checksum ≠ none ∧ o.checksum = none then
    .OTHER_NO_CHECKSUM
  else if s.checksum ≠ none ∧ o.checksum ≠ none ∧ s.checksum = o.checksum ∧
      s.size = o.size ∧ strLower s.name = strLower o.name ∧
      strLower s.path ≠ strLower o.path then
    .VALID_COPY_SAME_NAME
  else if s.checksum ≠ none ∧ o.checksum ≠ none ∧ s.checksum = o.checksum ∧
      s.size = o.size ∧ strLower s.name ≠ strLower o.name ∧
      strLower s.path ≠ strLower o.path then
    .VALID_COPY_RENAMED
  else if s.checksum ≠ none ∧ o.checksum ≠ none ∧
      strLower s.name = strLower o.name ∧ strLower s.path ≠ strLower o.path ∧
      s.size ≠ o.size ∧ s.checksum ≠ o.checksum then
    .UNSYNCED_DATA
  else if s.checksum ≠ none ∧ o.checksum ≠ none ∧
      strLower s.name = strLower o.name ∧ strLower s.path ≠ strLower o.path ∧
      s.size ≠ o.size ∧ s.checksum = o.checksum then
    .UNSYNCED_CHECKSUM
  else if s.checksum ≠ none ∧ o.checksum ≠ none ∧
      strLower s.name = strLower o.name ∧ strLower s.path ≠ strLower o.path ∧
      s.size = o.size ∧ s.checksum ≠ o.checksum then
    .UNSYNCED_OR_CORRUPT_DATA
  else if s.checksum ≠ none ∧ o.checksum ≠ none ∧ s.checksum = o.checksum ∧
      s.size ≠ o.size ∧ strLower s.name ≠ strLower o.name then
    .CHECKSUM_COLLISION
  else if s.checksum ≠ none ∧ o.checksum ≠ none ∧ s.checksum ≠ o.checksum ∧
      s.size ≠ o.size ∧ strLower s.name ≠ strLower o.name then
    .UNRELATED
  else
    .UNKNOWN

/-- The spec's flat ladder over the same six booleans. -/
def ladderSpec (ca cb ck sz pth nm : Bool) : Match :=
  if ca && cb && ck && sz && pth then .SELF
  else if sz && pth && !ca && cb then .SELF_NO_CHECKSUM
  else if sz && pth && ca && !cb then .OTHER_NO_CHECKSUM
  else if ca && cb && ck && sz && nm && !pth then .VALID_COPY_SAME_NAME
  else if ca && cb && ck && sz && !nm && !pth then .VALID_COPY_RENAMED
  else if ca && cb && nm && !pth && !sz && !ck then .UNSYNCED_DATA
  else if ca && cb && nm && !pth && !sz && ck then .UNSYNCED_CHECKSUM
  else if ca && cb && nm && !pth && sz && !ck then .UNSYNCED_OR_CORRUPT_DATA
  else if ca && cb && ck && !sz && !nm then .CHECKSUM_COLLISION
  else if ca && cb && !ck && !sz && !nm then .UNRELATED
  else .UNKNOWN

theorem classifySpecLadder_eq_ladderSpec (a b : DVFile) :
    classifySpecLadder a b =
      ladderSpec (decide (a.checksum ≠ none)) (decide (b.checksum ≠ none))
        (decide (a.checksum = b.checksum)) (decide (a.size = b.size))
        (decide (strLower a.path = strLower b.path))
        (decide (strLower a.name = strLower b.name)) := by
  by_cases h1 : a.checksum = none <;> by_cases h2 : b.checksum = none <;>
    by_cases h3 : a.checksum = b.checksum <;> by_cases h4 : a.size = b.size <;>
    by_cases h5 : strLower a.path = strLower b.path <;>
    by_cases h6 : strLower a.name = strLower b.name <;>
    simp [classifySpecLadder, ladderSpec, h1, h2, h3, h4, h5, h6]

theorem ladderCode_eq_ladderSpec :
    ∀ ca cb ck sz pth nm : Bool,
      ladderCode ca cb ck sz pth nm = ladderSpec ca cb ck sz pth nm := by
  decide

/-- C2: `DataValidationFile.__eq__` is a pure function of the two records
implementing the §4.2 decision table as a priority ladder: for every pair
of records the result is the kind of the first table rule (in listed order)
whose condition holds; in particular, both checksummed with checksum equal,
size equal, name equal and path differing yields VALID_COPY_SAME_NAME. -/
theorem classify_implements_spec_ladder :
    (∀ a b : DVFile, classify a b = classifySpecLadder a b) ∧
    (∀ a b : DVFile, a.checksum ≠ none → b.checksum ≠ none →
      a.checksum = b.checksum → a.size = b.size →
      strLower a.name = strLower b.name → strLower a.path ≠ strLower b.path →
      classify a b = Match.VALID_COPY_SAME_NAME) := by
  constructor
  · intro a b
    rw [classify_eq_ladderCode, classifySpecLadder_eq_ladderSpec,
      ladderCode_eq_ladderSpec]
  · intro a b h1 h2 h3 h4 h5 h6
    simp [classify, classifyQ, h1, h2, h3, h4, h5, h6]

/-- Witness for C2 at concrete records. -/
theorem classify_implements_spec_ladder_witness :
    classify
        ⟨"//acq/1_2_3/rec.npx2", "rec.npx2", "1", "1_2_3", some 1000,
          some "AAAAAAAA"⟩
        ⟨"//archive/1_2_3/rec.npx2", "rec.npx2", "1", "1_2_3", some 1000,
          some "AAAAAAAA"⟩ = Match.VALID_COPY_SAME_NAME :=
  classify_implements_spec_ladder.2
    ⟨"//acq/1_2_3/rec.npx2", "rec.npx2", "1", "1_2_3", some 1000,
      some "AAAAAAAA"⟩
    ⟨"//archive/1_2_3/rec.npx2", "rec.npx2", "1", "1_2_3", some 1000,
      some "AAAAAAAA"⟩
    (by decide) (by decide) (by decide) (by decide) (by decide) (by decide)

/-- C3 counterexample: for a record with no checksum, comparing the record
with itself yields UNKNOWN, not SELF, so `classify(a, a) == SELF` fails for
records whose checksum is absent. -/
theorem classify_self_no_checksum_cex :
    classify ⟨"//x/1_2_3/f.bin", "f.bin", "1", "1_2_3", some 1, none⟩
        ⟨"//x/1_2_3/f.bin", "f.bin", "1", "1_2_3", some 1, none⟩ =
      Match.UNKNOWN ∧
    classify ⟨"//x/1_2_3/f.bin", "f.bin", "1", "1_2_3", some 1, none⟩
        ⟨"//x/1_2_3/f.bin", "f.bin", "1", "1_2_3", some 1, none⟩ ≠
      Match.SELF := by
  constructor <;> decide

theorem classify_self_aux (a : DVFile) (h : a.checksum ≠ none) :
    classify a a = Match.SELF := by
  simp [classify, classifyQ, h]

/-- C3 (amended): for every record `a` that has a checksum,
`classify(a, a) == SELF`; when the checksum is absent the comparison is
UNKNOWN instead. -/
theorem classify_self (a : DVFile) (h : a.checksum ≠ none) :
    classify a a = Match.SELF :=
  classify_self_aux a h

/-- Witness for C3's amended theorem. -/
theorem classify_self_witness :
    (⟨"//x/1_2_3/f.bin", "f.bin", "1", "1_2_3", some 1,
        some "AAAAAAAA"⟩ : DVFile).checksum ≠ none ∧
    classify ⟨"//x/1_2_3/f.bin", "f.bin", "1", "1_2_3", some 1,
        some "AAAAAAAA"⟩
      ⟨"//x/1_2_3/f.bin", "f.bin", "1", "1_2_3", some 1,
        some "AAAAAAAA"⟩ = Match.SELF :=
  ⟨by decide, classify_self _ (by decide)⟩

theorem ladderCode_self_no_checksum_swap :
    ∀ ca cb ck sz pth nm : Bool,
      (ladderCode ca cb ck sz pth nm = Match.SELF_NO_CHECKSUM ↔
        ladderCode cb ca ck sz pth nm = Match.OTHER_NO_CHECKSUM) := by
  decide

/-- C4: for every pair of records that both have checksums the classifier
is symmetric, and the deliberately asymmetric SELF_NO_CHECKSUM /
OTHER_NO_CHECKSUM outcomes (which require exactly one side to be missing a
checksum) swap when subject and other are swapped. -/
theorem classify_symm_for_checksummed :
    (∀ a b : DVFile, a.checksum ≠ none → b.checksum ≠ none →
      classify a b = classify b a) ∧
    (∀ a b : DVFile,
      (classify a b = Match.SELF_NO_CHECKSUM ↔
        classify b a = Match.OTHER_NO_CHECKSUM)) := by
  have swap : ∀ a b : DVFile,
      classify b a =
        ladderCode (decide (b.checksum ≠ none)) (decide (a.checksum ≠ none))
          (decide (a.checksum = b.checksum)) (decide (a.size = b.size))
          (decide (strLower a.path = strLower b.path))
          (decide (strLower a.name = strLower b.name)) := by
    intro a b
    rw [classify_eq_ladderCode]
    congr 1 <;> rw [decide_eq_decide] <;> exact eq_comm
  constructor
  · intro a b h1 h2
    rw [classify_eq_ladderCode, swap a b]
    have e1 : decide (a.checksum ≠ none) = true := by simpa using h1
    have e2 : decide (b.checksum ≠ none) = true := by simpa using h2
    rw [e1, e2]
  · intro a b
    rw [classify_eq_ladderCode, swap a b]
    exact ladderCode_self_no_checksum_swap _ _ _ _ _ _

/-- Witness for C4 at concrete fully-checksummed records. -/
theorem classify_symm_for_checksummed_witness :
    (⟨"//x/1_2_3/f.bin", "f.bin", "1", "1_2_3", some 1,
        some "AAAAAAAA"⟩ : DVFile).checksum ≠ none ∧
    classify ⟨"//x/1_2_3/f.bin", "f.bin", "1", "1_2_3", some 1,
        some "AAAAAAAA"⟩
        ⟨"//y/1_2_3/g.bin", "g.bin", "1", "1_2_3", some 2,
          some "BBBBBBBB"⟩ =
      classify ⟨"//y/1_2_3/g.bin", "g.bin", "1", "1_2_3", some 2,
          some "BBBBBBBB"⟩
        ⟨"//x/1_2_3/f.bin", "f.bin", "1", "1_2_3", some 1,
          some "AAAAAAAA"⟩ :=
  ⟨by decide,
    classify_symm_for_checksummed.1 _ _ (by decide) (by decide)⟩

/-! ### Session key extraction (`Session` in `data_validation.py`) -/

/-- Python's `str.split(sep)` for a single-character separator, on the
character list. -/
def splitChar (sep : Char) : List Char → List (List Char)
  | [] => [[]]
  | c :: rest =>
    match splitChar sep rest with
    | [] => [[]]
    | g :: gs => if c = sep then [] :: g :: gs else (c :: g) :: gs

/-- Errors raised by the embedded operations. -/
inductive Err where
  | invalidPath
  | noSessionKey
  | invalidChecksum
  | fileNotFound
  | backupAssert
  | pathsAssert
  | matchesUnbound
  | typeErr
  deriving DecidableEq, Repr

deriving instance DecidableEq for Except

/-- Length of the run of decimal digits at the head of the list. -/
def digitRun : List Char → Nat
  | [] => 0
  | c :: rest => if c.isDigit then digitRun rest + 1 else 0

/-- One attempted match of the session regular expression
`[0-9]{0,10}_[0-9]{0,6}_[0-9]{0,8}` at the head of the list, returning the
length of the (greedy) match.  Each digit group is maximal: a longer run
than the quantifier bound cannot be repaired by backtracking because the
following character would still be a digit, not the literal underscore. -/
def matchAt (l : List Char) : Option Nat :=
  let k := digitRun l
  if k > 10 then none
  else
    match l.drop k with
    | '_' :: r1 =>
      let m := digitRun r1
      if m > 6 then none
      else
        match r1.drop m with
        | '_' :: r2 => some (k + m + 2 + min (digitRun r2) 8)
        | _ => none
    | _ => none

/-- Embeds `re.findall` for the session pattern: scan left to right, take each
leftmost non-overlapping match.  Fuel is the remaining string length; every
match is at least two characters long, so the fuel is always sufficient. -/
def findAllAux : Nat → List Char → List String
  | 0, _ => []
  | _, [] => []
  | fuel + 1, c :: rest =>
    match matchAt (c :: rest) with
    | some len => String.mk ((c :: rest).take len) :: findAllAux fuel ((c :: rest).drop len)
    | none => findAllAux fuel rest

/-- All session-pattern matches in a path, in order of occurrence. -/
def sessionFindAll (path : String) : List String :=
  findAllAux path.data.length path.data

/-- Embeds `Session.folder`: the first match of the session pattern, if any. -/
def sessionFolderOf (path : String) : Option String :=
  (sessionFindAll path).head?

/-- Embeds `Session.folder` logs a warning (it does not raise) when the path holds
several non-identical matches of the session pattern. -/
def sessionWarns (path : String) : Bool :=
  match sessionFindAll path with
  | [] => false
  | f :: rest => !(rest.all (fun s => s == f))

/-- The constituent parts of a session folder string. -/
structure SessionInfo where
  id : String
  mouse : String
  date : String
  folder : String
  deriving DecidableEq, Repr

/-- Embeds `Session.__init__`: derive the session key from the first match of the
session pattern in the path; raise when there is none.  (The lims/npexp
path lookups of the constructor are external collaborators, out of the
modelled scope.) -/
def mkSession (path : String) : Except Err SessionInfo :=
  match sessionFindAll path with
  | [] => .error .noSessionKey
  | f :: _ =>
    let parts := (splitChar '_' f.data).map String.mk
    .ok ⟨parts.getD 0 "", parts.getD 1 "", parts.getD 2 "", f⟩

/-- The claim's pattern `\d{1,10}_\d{1,6}_\d{1,8}` (every digit group
non-empty), written from the spec's words for comparison with `matchAt`. -/
def specMatchAt (l : List Char) : Option Nat :=
  let k := digitRun l
  if k = 0 ∨ k > 10 then none
  else
    match l.drop k with
    | '_' :: r1 =>
      let m := digitRun r1
      if m = 0 ∨ m > 6 then none
      else
        match r1.drop m with
        | '_' :: r2 =>
          let p := digitRun r2
          if p = 0 then none else some (k + m + 2 + min p 8)
        | _ => none
    | _ => none

/-- Embeds `re.findall` for the spec's pattern. -/
def specFindAllAux : Nat → List Char → List String
  | 0, _ => []
  | _, [] => []
  | fuel + 1, c :: rest =>
    match specMatchAt (c :: rest) with
    | some len => String.mk ((c :: rest).take len) :: specFindAllAux fuel ((c :: rest).drop len)
    | none => specFindAllAux fuel rest

/-- All matches of the claim's non-empty-group pattern in a path. -/
def specSessionFindAll (path : String) : List String :=
  specFindAllAux path.data.length path.data

/-- C7 counterexample: the path segment pattern in the code is
`[0-9]{0,10}_[0-9]{0,6}_[0-9]{0,8}` — the digit groups may be empty.  The
path does not hold any segment matching the claim's non-empty-group
pattern, yet session construction succeeds (folder is the bare double
underscore, with empty id, mouse and date), where the claim says it must
fail with the no-session-key error. -/
theorem session_empty_groups_cex :
    specSessionFindAll "a__b.txt" = [] ∧
    sessionFolderOf "a__b.txt" = some "__" ∧
    mkSession "a__b.txt" = .ok ⟨"", "", "", "__"⟩ := by
  refine ⟨by decide, by decide, by decide⟩

/-- C7 (amended): the session key derives from the first match of
`[0-9]{0,10}_[0-9]{0,6}_[0-9]{0,8}` in the path (each digit group may be
empty and has at most 10, 6, 8 digits); the first occurrence wins, repeated
non-identical occurrences only set a warning flag, and construction fails
with the no-session-key error exactly when the pattern does not occur. -/
theorem session_key_from_first_match (path : String) :
    ((mkSession path).isOk ↔ sessionFindAll path ≠ []) ∧
    (mkSession path = .error .noSessionKey ↔ sessionFindAll path = []) ∧
    (∀ m ms, sessionFindAll path = m :: ms →
      mkSession path =
        .ok ⟨((splitChar '_' m.data).map String.mk).getD 0 "",
          ((splitChar '_' m.data).map String.mk).getD 1 "",
          ((splitChar '_' m.data).map String.mk).getD 2 "", m⟩) := by
  refine ⟨?_, ?_, ?_⟩
  · cases h : sessionFindAll path <;> simp [mkSession, h, Except.isOk, Except.toBool]
  · cases h : sessionFindAll path <;> simp [mkSession, h]
  · intro m ms h
    simp [mkSession, h]

/-- Witness for C7's amended theorem, including a repeated-occurrence path
(warning, no error). -/
theorem session_key_from_first_match_witness :
    sessionFindAll "x/123_45_678/y/999_45_678/z.txt" =
      ["123_45_678", "999_45_678"] ∧
    sessionWarns "x/123_45_678/y/999_45_678/z.txt" = true ∧
    mkSession "x/123_45_678/y/999_45_678/z.txt" =
      .ok ⟨"123", "45", "678", "123_45_678"⟩ :=
  ⟨by decide, by decide,
    (session_key_from_first_match "x/123_45_678/y/999_45_678/z.txt").2.2
      "123_45_678" ["999_45_678"] (by decide)⟩

/-! ### Checksum engine (`chunk_crc32`, `mmap_direct`) -/

/-- One bit step of the reflected CRC-32 computation (polynomial
0xEDB88320), as implemented by `zlib.crc32`. -/
def crcRound (c : Nat) : Nat :=
  if c % 2 = 1 then (c / 2) ^^^ 0xEDB88320 else c / 2

/-- Iterate `crcRound`. -/
def crcRounds : Nat → Nat → Nat
  | 0, c => c
  | n + 1, c => crcRounds n (crcRound c)

/-- Fold one byte into the CRC state. -/
def crcByte (c b : Nat) : Nat :=
  crcRounds 8 (c ^^^ b)

/-- Embeds `zlib.crc32(data, crc)`: the standard incremental CRC-32 with pre- and
post-inversion of the 32-bit state. -/
def crc32 (data : List Nat) (crc : Nat) : Nat :=
  (data.foldl crcByte (crc ^^^ 0xFFFFFFFF)) ^^^ 0xFFFFFFFF

/-- Uppercase hexadecimal digit. -/
def hexChar (n : Nat) : Char :=
  "0123456789ABCDEF".data.getD n '0'

/-- Python's `'%08X' % n` for a 32-bit value: eight uppercase hex digits. -/
def toHex8 (n : Nat) : String :=
  String.mk ((List.range 8).map fun i => hexChar ((n >>> (4 * (7 - i))) &&& 15))

/-- The fixed read size of `chunk_crc32`. -/
def chunkSize : Nat := 65536

/-- The read loop of `chunk_crc32`: `reads` calls to `ins.read(chunk_size)`
(a read past the end returns the empty chunk), each folded into the running
CRC. -/
def crcChunks : Nat → List Nat → Nat → Nat
  | 0, _, crc => crc
  | n + 1, rest, crc => crcChunks n (rest.drop chunkSize) (crc32 (rest.take chunkSize) crc)

/-- Embeds `chunk_crc32(file, fsize)` on the file's byte content: when `fsize` is
absent (or 0, which is falsy) it is taken from `os.stat`; the loop performs
`fsize // chunk_size + 1` reads and the final CRC is masked and formatted
as eight uppercase hex digits. -/
def chunk_crc32 (content : List Nat) (fsize : Option Nat) : String :=
  let n := match fsize with
    | some k => if k = 0 then content.length else k
    | none => content.length
  toHex8 ((crcChunks (n / chunkSize + 1) content 0) &&& 0xFFFFFFFF)

/-- Embeds `mmap_direct(fpath)` on the file's byte content: one `crc32` call over
the whole mapping. -/
def mmap_direct (content : List Nat) : String :=
  toHex8 ((crc32 content 0) &&& 0xFFFFFFFF)

/-- The repository's own self-test vector (`test_crc32_function`): the
digest of `b'foo'` must be `8C736521`.  This validates the embedded CRC-32
against the source's startup assertion. -/
theorem crc32_self_test_vector :
    chunk_crc32 [102, 111, 111] none = "8C736521" ∧
    mmap_direct [102, 111, 111] = "8C736521" := by
  constructor <;> decide

theorem crc32_append (a b : List Nat) (crc : Nat) :
    crc32 (a ++ b) crc = crc32 b (crc32 a crc) := by
  unfold crc32
  rw [List.foldl_append]
  congr 1
  rw [Nat.xor_assoc, Nat.xor_self, Nat.xor_zero]

theorem crc32_nil (crc : Nat) : crc32 [] crc = crc := by
  unfold crc32
  simp [Nat.xor_assoc]

theorem crcChunks_covers :
    ∀ (n : Nat) (rest : List Nat) (crc : Nat), rest.length ≤ n * chunkSize →
      crcChunks n rest crc = crc32 rest crc := by
  intro n
  induction n with
  | zero =>
    intro rest crc h
    have : rest = [] := List.eq_nil_of_length_eq_zero (Nat.le_zero.mp (by simpa using h))
    subst this
    simp [crcChunks, crc32_nil]
  | succ n ih =>
    intro rest crc h
    have hlen : (rest.drop chunkSize).length ≤ n * chunkSize := by
      rw [List.length_drop]
      have hs : (n + 1) * chunkSize = n * chunkSize + chunkSize := Nat.succ_mul _ _
      omega
    calc crcChunks (n + 1) rest crc
        = crcChunks n (rest.drop chunkSize) (crc32 (rest.take chunkSize) crc) := rfl
      _ = crc32 (rest.drop chunkSize) (crc32 (rest.take chunkSize) crc) := ih _ _ hlen
      _ = crc32 (rest.take chunkSize ++ rest.drop chunkSize) crc := (crc32_append _ _ _).symm
      _ = crc32 rest crc := by rw [List.take_append_drop]

/-- C9: for every file content, the buffered chunked digest computation
(`chunk_crc32`, fixed 65536-byte reads) and the memory-mapped whole-file
digest computation (`mmap_direct`) return identical digest strings. -/
theorem chunk_mmap_digest_eq (content : List Nat) :
    chunk_crc32 content none = mmap_direct content := by
  have h1 : chunk_crc32 content none =
      toHex8 ((crcChunks (content.length / chunkSize + 1) content 0) &&& 0xFFFFFFFF) :=
    rfl
  have hcover : content.length ≤ (content.length / chunkSize + 1) * chunkSize := by
    have hmod : content.length % chunkSize < chunkSize :=
      Nat.mod_lt _ (by decide)
    have hdm := Nat.div_add_mod content.length chunkSize
    calc content.length
        = chunkSize * (content.length / chunkSize) + content.length % chunkSize :=
          hdm.symm
      _ ≤ chunkSize * (content.length / chunkSize) + chunkSize :=
          Nat.add_le_add_left (Nat.le_of_lt hmod) _
      _ = (content.length / chunkSize + 1) * chunkSize := by ring
  rw [h1, crcChunks_covers _ _ _ hcover]
  rfl

/-! ### Filesystem model and the record constructor
(`SessionFile.__init__` + `DataValidationFile.__init__` as combined in
`CRC32DataValidationFile`) -/

/-- The filesystem visible to the program: regular files with their byte
content, directories, and files whose deletion is denied (PermissionError). -/
structure FS where
  files : List (String × List Nat)
  dirs : List String
  locked : List String
  deriving DecidableEq, Repr

/-- Content of the regular file at a path, if one exists. -/
def fsLookup : List (String × List Nat) → String → Option (List Nat)
  | [], _ => none
  | (p, content) :: rest, path => if p = path then some content else fsLookup rest path

/-- Embeds `os.path.isfile`. -/
def fileExists (fs : FS) (path : String) : Bool :=
  (fsLookup fs.files path).isSome

/-- Embeds `os.path.exists` (true for files and directories). -/
def pathExists (fs : FS) (path : String) : Bool :=
  fileExists fs path || fs.dirs.any (fun d => decide (d = path))

/-- Embeds `os.path.basename` for POSIX paths. -/
def basename (p : String) : String :=
  String.mk (((splitChar '/' p.data).getLastD []))

/-- Whether `os.path.splitext` yields a non-empty extension: the basename
has a dot after its leading dots. -/
def hasExt (p : String) : Bool :=
  ((basename p).data.dropWhile (fun c => c = '.')).contains '.'

/-- Python's `str.startswith(pre)`. -/
def strStartsWith (s pre : String) : Bool :=
  s.data.take pre.data.length = pre.data

/-- The path normalisation in `DataValidationFile.__init__`: the stored
path is POSIX (inputs here are already clean POSIX strings, on which
`pathlib.Path(...).as_posix()` is the identity) and a single leading slash
is doubled to match the network-share convention
(`if self.path[0] == '/' and self.path[1] != '/'`). -/
def normPath (p : String) : String :=
  match p.data with
  | '/' :: c :: _ => if c = '/' then p else "/" ++ p
  | _ => p

/-- Embeds `valid_crc32_checksum`: an 8-character string whose upper-cased
characters are all hexadecimal digits. -/
def valid_crc32_checksum (value : String) : Bool :=
  value.length == 8 &&
    (strUpper value).data.all (fun c => ("0123456789ABCDEF".data).contains c)

/-- The `checksum` property setter of `DataValidationFile`: validate the
format (with the CRC32 validator of `CRC32DataValidationFile`) and assign
the value on the existing record, raising on an invalid format. -/
def checksumSet (f : DVFile) (value : String) : Except Err DVFile :=
  if valid_crc32_checksum value then .ok { f with checksum := some value }
  else .error .invalidChecksum

/-- Embeds `DataValidationFile.generate_checksum(path, size)` reading the file
from the filesystem: `chunk_crc32` over the file's bytes.  (The
`checksum_test` self-test run first always passes in this model, see
`crc32_self_test_vector`.) -/
def fsGenerateChecksum (fs : FS) (path : String) (fsize : Option Nat) : Except Err String :=
  match fsLookup fs.files path with
  | none => .error .fileNotFound
  | some content => .ok (chunk_crc32 content fsize)

/-- Embeds `CRC32DataValidationFile.checksum_threshold`: 0, so no checksum is
auto-generated at construction. -/
def crc32ChecksumThreshold : Nat := 0

/-- The path, session and size handling shared by every construction:
accessibility and regular-file checks, session-key extraction, path
normalisation, basename, and the size argument logic (a given size of 0 is
falsy and is treated like an absent size). -/
def dvfCore (fs : FS) (path : String) (size : Option Nat) : Except Err DVFile :=
  let accessible := pathExists fs path
  let isFile := if accessible then fileExists fs path else hasExt path
  if isFile = false then .error .invalidPath
  else
    match mkSession path with
    | .error e => .error e
    | .ok sess =>
      let path2 := normPath path
      let sizeTruthy : Bool := match size with
        | some n => decide (n ≠ 0)
        | none => false
      let size2 : Option Nat :=
        if !sizeTruthy && accessible then (fsLookup fs.files path).map List.length
        else if sizeTruthy then size
        else none
      .ok ⟨path2, basename path2, sess.id, sess.folder, size2, none⟩

/-- Embeds `CRC32DataValidationFile(path, checksum, size)`: the combined
constructor.  A supplied non-empty checksum goes through the property
setter (format validation); an empty string is falsy and is ignored.  The
eager-checksum branch is kept from the source, though it never fires since
the CRC32 class sets `checksum_threshold` to 0. -/
def mkDVFile (fs : FS) (path : String) (checksum : Option String) (size : Option Nat) :
    Except Err DVFile :=
  match dvfCore fs path size with
  | .error e => .error e
  | .ok f0 =>
    let ckTruthy : Bool := match checksum with
      | some s => decide (s ≠ "")
      | none => false
    match (if ckTruthy then checksumSet f0 (checksum.getD "") else .ok f0) with
    | .error e => .error e
    | .ok f1 =>
      if !ckTruthy && decide (f1.path ≠ "") && pathExists fs f1.path &&
          (match f1.size with | some n => decide (n ≠ 0) | none => false) &&
          decide (f1.size.getD 0 < crc32ChecksumThreshold) then
        match fsGenerateChecksum fs f1.path f1.size with
        | .error e => .error e
        | .ok ck2 => checksumSet f1 ck2
      else .ok f1

/-- The claim's digest format, from the spec's words: a fixed-width
(8-character) string of uppercase hexadecimal digits. -/
def specUppercaseHex8 (s : String) : Bool :=
  s.length == 8 && s.data.all (fun c => ("0123456789ABCDEF".data).contains c)

/-- C8 counterexample: `"abcdef12"` is not an uppercase hexadecimal digest,
yet construction with it as the supplied checksum succeeds — the validator
upper-cases the value before checking, so lowercase hex digests are
accepted, contradicting the claim that every supplied string that is not
an uppercase digest is rejected. -/
theorem checksum_lowercase_accepted_cex :
    specUppercaseHex8 "abcdef12" = false ∧
    mkDVFile ⟨[], [], []⟩ "//x/1_2_3/f.txt" (some "abcdef12") none =
      .ok ⟨"//x/1_2_3/f.txt", "f.txt", "1", "1_2_3", none, some "abcdef12"⟩ := by
  constructor <;> decide

/-- C8 (amended): for every construction whose path handling succeeds, a
supplied non-empty checksum string is accepted exactly when it has 8
characters that are all hexadecimal digits after upper-casing (so lowercase
digests pass); otherwise construction fails with the invalid-checksum
error.  An empty supplied string is falsy in Python and is ignored. -/
theorem checksum_format_validation (fs : FS) (path ck : String) (size : Option Nat)
    (f : DVFile) (hok : mkDVFile fs path none size = .ok f) (hck : ck ≠ "") :
    (valid_crc32_checksum ck = true →
      mkDVFile fs path (some ck) size = .ok { f with checksum := some ck }) ∧
    (valid_crc32_checksum ck = false →
      mkDVFile fs path (some ck) size = .error .invalidChecksum) := by
  have hcore : dvfCore fs path size = .ok f := by
    unfold mkDVFile at hok
    cases hc : dvfCore fs path size with
    | error e => rw [hc] at hok; exact absurd hok (by simp)
    | ok f0 =>
      rw [hc] at hok
      simp [crc32ChecksumThreshold] at hok
      rw [hok]
  constructor
  · intro hv
    unfold mkDVFile
    rw [hcore]
    simp [hck, checksumSet, hv]
  · intro hv
    unfold mkDVFile
    rw [hcore]
    simp [hck, checksumSet, hv]

/-- Witness for C8's amended theorem. -/
theorem checksum_format_validation_witness :
    mkDVFile ⟨[], [], []⟩ "//x/1_2_3/f.txt" none none =
      .ok ⟨"//x/1_2_3/f.txt", "f.txt", "1", "1_2_3", none, none⟩ ∧
    ("ZZZZZZZZ" : String) ≠ "" ∧
    valid_crc32_checksum "ZZZZZZZZ" = false ∧
    mkDVFile ⟨[], [], []⟩ "//x/1_2_3/f.txt" (some "ZZZZZZZZ") none =
      .error .invalidChecksum :=
  ⟨by decide, by decide, by decide,
    (checksum_format_validation ⟨[], [], []⟩ "//x/1_2_3/f.txt" "ZZZZZZZZ" none
      ⟨"//x/1_2_3/f.txt", "f.txt", "1", "1_2_3", none, none⟩
      (by decide) (by decide)).2 (by decide)⟩

/-! ### The shelve-backed store (`ShelveDataValidationDB`) -/

/-- The shelve database: an insertion-ordered mapping from session id to
the list of records stored under it. -/
abbrev Store := List (String × List DVFile)

/-- Dictionary lookup. -/
def storeFind : Store → String → Option (List DVFile)
  | [], _ => none
  | (k, v) :: rest, key => if k = key then some v else storeFind rest key

/-- Dictionary assignment: replace the binding if the key exists, append a
new binding otherwise. -/
def storeSet : Store → String → List DVFile → Store
  | [], key, v => [(key, v)]
  | (k, w) :: rest, key, v =>
    if k = key then (key, v) :: rest else (k, w) :: storeSet rest key v

/-- The values of the `Match` enum, used by `get_matches` to validate its
`match` argument. -/
def shelveMatchVals : List Int := [0, -1, 5, 6, 7, 10, 11, 12, 13, 21, 22]

/-- Embeds `ShelveDataValidationDB.add_file`: skip when the session already holds
a SELF or SELF_NO_CHECKSUM entry for the file (the Python truthiness test
on the two list comprehensions), otherwise append to the session's list
(creating it when the session id is new). -/
def shelveAdd (st : Store) (f : DVFile) : Store :=
  match storeFind st f.session_id with
  | some entries =>
    if (entries.filter fun x => fileEq f x == 5) ≠ [] ∨
        (entries.filter fun x => fileEq f x == 6) ≠ [] then st
    else storeSet st f.session_id (entries ++ [f])
  | none => storeSet st f.session_id [f]

/-- The default filter of `get_matches`: entries with `(file == o) > 0`,
paired with their comparison values. -/
def shelveFilterPos (f : DVFile) (entries : List DVFile) : List DVFile × List Int :=
  (entries.filter (fun o => decide (0 < fileEq f o)),
    (entries.filter (fun o => decide (0 < fileEq f o))).map (fileEq f))

/-- The filter selection of `get_matches`: a supplied, truthy, valid match
value filters by Python's chained `(file == o) == match > 0`; anything else
(no argument, zero, or a value that is not a `Match` member — including the
lists some strategies pass) falls back to the default filter. -/
def shelveFilterBy (f : DVFile) (entries : List DVFile) (m : Option Int) :
    List DVFile × List Int :=
  match m with
  | some mv =>
    if mv ≠ 0 ∧ mv ∈ shelveMatchVals then
      (entries.filter (fun o => fileEq f o == mv && decide ((0 : Int) < mv)),
        (entries.filter (fun o => fileEq f o == mv && decide ((0 : Int) < mv))).map
          (fileEq f))
    else shelveFilterPos f entries
  | none => shelveFilterPos f entries

/-- Embeds `ShelveDataValidationDB.get_matches`: when the session id has no entry
in the shelf, the local variable `matches` is read before ever being bound
and the call raises; otherwise the session's entries are filtered and
returned together with their comparison values. -/
def shelveGetMatches (st : Store) (f : DVFile) (m : Option Int) :
    Except Err (List DVFile × List Int) :=
  match storeFind st f.session_id with
  | none => .error .matchesUnbound
  | some entries => .ok (shelveFilterBy f entries m)

theorem storeFind_storeSet_self (st : Store) (k : String) (v : List DVFile) :
    storeFind (storeSet st k v) k = some v := by
  induction st with
  | nil => simp [storeSet, storeFind]
  | cons hd rest ih =>
    obtain ⟨k1, w⟩ := hd
    by_cases hk : k1 = k
    · simp [storeSet, hk, storeFind]
    · simp [storeSet, hk, storeFind, ih]

theorem storeFind_storeSet_ne (st : Store) (k k2 : String) (v : List DVFile)
    (hne : k2 ≠ k) : storeFind (storeSet st k v) k2 = storeFind st k2 := by
  have hne2 : ¬k = k2 := fun h => hne h.symm
  induction st with
  | nil => simp [storeSet, storeFind, hne2]
  | cons hd rest ih =>
    obtain ⟨k1, w⟩ := hd
    by_cases hk : k1 = k
    · subst hk
      simp [storeSet, storeFind, hne2]
    · simp [storeSet, hk, storeFind, ih]

/-- C10: `ShelveDataValidationDB.get_matches` raises (the `matches` local
is never bound) exactly when the record's session id is absent from the
shelf; in particular an empty match list is only ever returned when the
session key exists in the store. -/
theorem get_matches_missing_session_raises (st : Store) (f : DVFile) (m : Option Int) :
    shelveGetMatches st f m = .error .matchesUnbound ↔
      storeFind st f.session_id = none := by
  cases hf : storeFind st f.session_id with
  | none => simp [shelveGetMatches, hf]
  | some entries => simp [shelveGetMatches, hf]

theorem ladderCode_self_no_checksum_absent :
    ∀ ca cb ck sz pth nm : Bool,
      ladderCode ca cb ck sz pth nm = Match.SELF_NO_CHECKSUM → ca = false := by
  decide

theorem classify_self_no_checksum_absent (a b : DVFile)
    (h : classify a b = Match.SELF_NO_CHECKSUM) : a.checksum = none := by
  rw [classify_eq_ladderCode] at h
  have := ladderCode_self_no_checksum_absent _ _ _ _ _ _ h
  simpa using this

theorem fileEq_eq_val_iff (a b : DVFile) (m : Match) :
    fileEq a b = m.val ↔ classify a b = m := by
  cases hc : classify a b <;> cases m <;> simp [fileEq, hc, Match.val]

/-- C6 counterexample: a record with no checksum classifies against itself
as UNKNOWN (value -1), which the `(file == o) > 0` filter discards — after
`add_file` the session key exists but `get_matches` returns the empty list,
with no SELF entry, falsifying the claim for records without a checksum. -/
theorem add_then_get_matches_no_self_cex :
    shelveGetMatches
        (shelveAdd []
          ⟨"//x/1_2_3/f.bin", "f.bin", "1", "1_2_3", some 1, none⟩)
        ⟨"//x/1_2_3/f.bin", "f.bin", "1", "1_2_3", some 1, none⟩ none =
      .ok ([], []) := by
  decide

/-- C6 (amended): for every record `r` that has a checksum, after
`add_file(r)` a `get_matches(r)` call succeeds and its result contains an
entry whose classification against `r` is SELF (value 5) — either `r`
itself, freshly appended, or the already-present entry whose SELF match
caused the add to be skipped.  For records without a checksum the self
comparison is UNKNOWN and no SELF entry is returned (see the
counterexample). -/
theorem add_then_get_matches_self (st : Store) (f : DVFile)
    (h : f.checksum ≠ none) :
    ∃ l tl, shelveGetMatches (shelveAdd st f) f none = .ok (l, tl) ∧
      ∃ e ∈ l, fileEq f e = 5 := by
  have hself : fileEq f f = 5 := by
    have := (fileEq_eq_val_iff f f Match.SELF).mpr (classify_self_aux f h)
    simpa [Match.val] using this
  cases hfind : storeFind st f.session_id with
  | none =>
    have hadd : shelveAdd st f = storeSet st f.session_id [f] := by
      simp [shelveAdd, hfind]
    rw [hadd]
    simp only [shelveGetMatches, storeFind_storeSet_self]
    refine ⟨_, _, rfl, ⟨f, ?_, hself⟩⟩
    simp [shelveFilterBy, shelveFilterPos, List.mem_filter, hself]
  | some entries =>
    by_cases hskip :
        (entries.filter fun x => fileEq f x == 5) ≠ [] ∨
          (entries.filter fun x => fileEq f x == 6) ≠ []
    · have hadd : shelveAdd st f = st := by
        simp only [shelveAdd, hfind]
        exact if_pos hskip
      cases hskip with
      | inl h5 =>
        obtain ⟨x, hxf⟩ := List.exists_mem_of_ne_nil _ h5
        obtain ⟨hx, hpx⟩ := List.mem_filter.mp hxf
        have hx5 : fileEq f x = 5 := by simpa using hpx
        rw [hadd]
        simp only [shelveGetMatches, hfind]
        refine ⟨_, _, rfl, ⟨x, ?_, hx5⟩⟩
        simp [shelveFilterBy, shelveFilterPos, List.mem_filter, hx5, hx]
      | inr h6 =>
        obtain ⟨x, hxf⟩ := List.exists_mem_of_ne_nil _ h6
        obtain ⟨hx, hpx⟩ := List.mem_filter.mp hxf
        have hx6 : fileEq f x = 6 := by simpa using hpx
        have hcl : classify f x = Match.SELF_NO_CHECKSUM :=
          (fileEq_eq_val_iff f x Match.SELF_NO_CHECKSUM).mp hx6
        exact absurd (classify_self_no_checksum_absent f x hcl) h
    · have hadd : shelveAdd st f = storeSet st f.session_id (entries ++ [f]) := by
        simp only [shelveAdd, hfind]
        exact if_neg hskip
      rw [hadd]
      simp only [shelveGetMatches, storeFind_storeSet_self]
      refine ⟨_, _, rfl, ⟨f, ?_, hself⟩⟩
      simp [shelveFilterBy, shelveFilterPos, List.mem_filter, hself]

/-- Witness for C6's amended theorem: a checksummed record added to the
empty store. -/
theorem add_then_get_matches_self_witness :
    (⟨"//x/1_2_3/f.bin", "f.bin", "1", "1_2_3", some 1,
        some "AAAAAAAA"⟩ : DVFile).checksum ≠ none ∧
    ∃ l tl,
      shelveGetMatches
          (shelveAdd []
            ⟨"//x/1_2_3/f.bin", "f.bin", "1", "1_2_3", some 1,
              some "AAAAAAAA"⟩)
          ⟨"//x/1_2_3/f.bin", "f.bin", "1", "1_2_3", some 1,
            some "AAAAAAAA"⟩ none = .ok (l, tl) ∧
      ∃ e ∈ l, fileEq ⟨"//x/1_2_3/f.bin", "f.bin", "1", "1_2_3", some 1,
        some "AAAAAAAA"⟩ e = 5 :=
  ⟨by decide, add_then_get_matches_self [] _ (by decide)⟩

/-! ### In-place checksum assignment (`DataValidationFolder.validate_backups`) -/

/-- Embeds `DataValidationFolder.regenerate_large_checksums` default. -/
def regenerateLargeChecksums : Bool := false

/-- Embeds `DataValidationFolder.upper_size_limit`: 5 GiB. -/
def upperSizeLimit : Nat := 1024 ^ 3 * 5

/-- The checksum-assignment step of `DataValidationFolder.validate_backups`
(and the `gen` helper of `add_folder_to_db`): when the record has no
checksum and regeneration is on or the size is below the limit, a newly
generated checksum is assigned to the existing record through the property
setter (no new record is constructed) and the mutated record is added to
the database.  Comparing a `None` size against the limit is a Python
`TypeError`. -/
def vbChecksumStep (st : Store) (fs : FS) (f : DVFile) : Except Err (DVFile × Store) :=
  if f.checksum ≠ none then .ok (f, st)
  else
    match (if regenerateLargeChecksums then .ok true
      else match f.size with
        | none => .error .typeErr
        | some n => .ok (decide (n < upperSizeLimit)) : Except Err Bool) with
    | .error e => .error e
    | .ok false => .ok (f, st)
    | .ok true =>
      match fsGenerateChecksum fs f.path none with
      | .error e => .error e
      | .ok ck =>
        match checksumSet f ck with
        | .error e => .error e
        | .ok f2 => .ok (f2, shelveAdd st f2)

/-- C5 counterexample: the checksum property setter updates the checksum of
an already-constructed record while its size is untouched — including
replacing an existing checksum by a different one — and the
`validate_backups` checksum step invokes it on the existing record (the
result differs from the input only in the checksum field) instead of
constructing a new record. -/
theorem checksum_updated_in_place_cex :
    checksumSet ⟨"//x/1_2_3/f.bin", "f.bin", "1", "1_2_3", some 1,
        some "AAAAAAAA"⟩ "BBBBBBBB" =
      .ok ⟨"//x/1_2_3/f.bin", "f.bin", "1", "1_2_3", some 1,
        some "BBBBBBBB"⟩ ∧
    vbChecksumStep [] ⟨[("//x/1_2_3/f.bin", [0])], [], []⟩
        ⟨"//x/1_2_3/f.bin", "f.bin", "1", "1_2_3", some 1, none⟩ =
      .ok (⟨"//x/1_2_3/f.bin", "f.bin", "1", "1_2_3", some 1,
          some "D202EF8D"⟩,
        [("1", [⟨"//x/1_2_3/f.bin", "f.bin", "1", "1_2_3", some 1,
          some "D202EF8D"⟩])]) := by
  constructor <;> decide

/-- Entries currently stored under a session id (empty when absent). -/
def entriesOf (st : Store) (k : String) : List DVFile :=
  (storeFind st k).getD []

/-- C5 (amended): record checksums can be re-assigned in place after
construction through the validated property setter, and
`validate_backups` / `add_folder_to_db` use that setter on existing records
(see the counterexample); what does hold is the store side of the claim:
`ShelveDataValidationDB.add_file` never updates a stored entry — for every
store, record and session id, the entries already stored are preserved
unchanged and in order, the add only ever appending. -/
theorem shelve_add_append_only (st : Store) (f : DVFile) (k : String) :
    ∃ extra, entriesOf (shelveAdd st f) k = entriesOf st k ++ extra := by
  by_cases hk : k = f.session_id
  · subst hk
    cases hfind : storeFind st f.session_id with
    | none =>
      refine ⟨[f], ?_⟩
      have hadd : shelveAdd st f = storeSet st f.session_id [f] := by
        simp [shelveAdd, hfind]
      rw [hadd]
      simp [entriesOf, storeFind_storeSet_self, hfind]
    | some entries =>
      by_cases hskip :
          (entries.filter fun x => fileEq f x == 5) ≠ [] ∨
            (entries.filter fun x => fileEq f x == 6) ≠ []
      · refine ⟨[], ?_⟩
        have hadd : shelveAdd st f = st := by
          simp only [shelveAdd, hfind]
          exact if_pos hskip
        rw [hadd]
        simp
      · refine ⟨[f], ?_⟩
        have hadd : shelveAdd st f = storeSet st f.session_id (entries ++ [f]) := by
          simp only [shelveAdd, hfind]
          exact if_neg hskip
        rw [hadd]
        simp [entriesOf, storeFind_storeSet_self, hfind]
  · refine ⟨[], ?_⟩
    have hfix : storeFind (shelveAdd st f) k = storeFind st k := by
      cases hfind : storeFind st f.session_id with
      | none =>
        have hadd : shelveAdd st f = storeSet st f.session_id [f] := by
          simp [shelveAdd, hfind]
        rw [hadd, storeFind_storeSet_ne _ _ _ _ hk]
      | some entries =>
        by_cases hskip :
            (entries.filter fun x => fileEq f x == 5) ≠ [] ∨
              (entries.filter fun x => fileEq f x == 6) ≠ []
        · have hadd : shelveAdd st f = st := by
            simp only [shelveAdd, hfind]
            exact if_pos hskip
          rw [hadd]
        · have hadd : shelveAdd st f =
              storeSet st f.session_id (entries ++ [f]) := by
            simp only [shelveAdd, hfind]
            exact if_neg hskip
          rw [hadd, storeFind_storeSet_ne _ _ _ _ hk]
    simp [entriesOf, hfix]

/-! ### The backup-resolution strategies (`strategies.py`)

`strategies.py` is written against the `DataValidationDB.get_matches`
contract that returns a plain list of records (and against record
attributes `relative_path`, `report`, `probe_dir` and a hashable record
type).  The revision of `data_validation.py` providing those is not in the
sources — only the abstract declaration and the spec describe them — so
those collaborators are modelled from the spec below; everything else is
translated from `strategies.py` itself. -/

/-- Modelled from the spec: the §4.3 store contract consumed by
`strategies.py` — `get_matches(record, kindFilter?) -> [record]` returns
the stored records of the record's session whose classification against
the record is in the filter, defaulting to everything except
UNRELATED/UNKNOWN (`(record == r) > 0`).  The concrete
`ShelveDataValidationDB.get_matches` in the provided `data_validation.py`
returns a pair of lists instead (`shelveGetMatches`); the list-returning
revision the strategies import is missing from the sources. -/
def specGetMatches (st : Store) (f : DVFile) (kindFilter : Option (List Int)) :
    List DVFile :=
  let entries := entriesOf st f.session_id
  match kindFilter with
  | none => entries.filter (fun o => decide (0 < fileEq f o))
  | some ks => entries.filter (fun o => ks.contains (fileEq f o))

/-- Embeds `strategies.generate_checksum`: generate a checksum for the subject's
path (passing the subject's size to the reader), construct a new record
with it and add that record to the database (the shelve add of §4.3). -/
def sGenerateChecksum (st : Store) (fs : FS) (subject : DVFile) :
    Except Err (DVFile × Store) :=
  match fsGenerateChecksum fs subject.path subject.size with
  | .error e => .error e
  | .ok ck =>
    match mkDVFile fs subject.path (some ck) subject.size with
    | .error e => .error e
    | .ok newFile => .ok (newFile, shelveAdd st newFile)

/-- Embeds `strategies.exchange_if_checksum_in_db`: swap the subject for the
single SELF_NO_CHECKSUM entry of its session, if exactly one exists. -/
def sExchangeIfChecksumInDb (st : Store) (subject : DVFile) : DVFile :=
  if subject.checksum ≠ none then subject
  else
    match specGetMatches st subject (some [6]) with
    | [] => subject
    | [m] => m
    | _ => subject

/-- Embeds `strategies.ensure_checksum`: try the exchange, then generate and
persist a checksum if the subject still has none. -/
def sEnsureChecksum (st : Store) (fs : FS) (subject : DVFile) :
    Except Err (DVFile × Store) :=
  let s1 := if subject.checksum = none then sExchangeIfChecksumInDb st subject
    else subject
  if s1.checksum = none then sGenerateChecksum st fs s1 else .ok (s1, st)

/-- Embeds `strategies.find_invalid_copies_in_db`: stored matches ranked between
CHECKSUM_COLLISION and UNSYNCED_OR_CORRUPT_DATA, `None` when there are
none. -/
def sFindInvalidCopiesInDb (st : Store) (subject : DVFile) :
    Option (List DVFile) :=
  let l := (specGetMatches st subject none).filter
    (fun m => decide (10 ≤ fileEq subject m) && decide (fileEq subject m ≤ 13))
  if l = [] then none else some l

/-- Embeds `strategies.find_valid_copies_in_db`: stored matches ranked
VALID_COPY_RENAMED / VALID_COPY_SAME_NAME, `None` when there are none. -/
def sFindValidCopiesInDb (st : Store) (subject : DVFile) :
    Option (List DVFile) :=
  let l := specGetMatches st subject (some [22, 21])
  if l = [] then none else some l

/-- Modelled from the spec: the BackupSet — accepted backups are collected
into a set de-duplicated by the triple (path, size, checksum); the Python
`set` relies on record hashing from the missing revision. -/
def bsAdd (bs : List DVFile) (f : DVFile) : List DVFile :=
  if bs.any (fun b => decide (b.path = f.path) && decide (b.size = f.size) &&
      decide (b.checksum = f.checksum)) then bs
  else bs ++ [f]

/-- Index of the first occurrence of `needle` in the remaining list. -/
def findSubAux (needle : List Char) : List Char → Nat → Option Nat
  | [], i => if needle = [] then some i else none
  | c :: rest, i =>
    if (c :: rest).take needle.length = needle then some i
    else findSubAux needle rest (i + 1)

/-- Modelled from the spec: `subject.relative_path`, the session-relative
path used for the exact mirrored probe — the path suffix beginning at the
session folder, falling back to folder/name when the folder does not occur
in the path. -/
def relativePath (f : DVFile) : String :=
  match findSubAux f.session_folder.data f.path.data 0 with
  | some i => String.mk (f.path.data.drop i)
  | none => f.session_folder ++ "/" ++ f.name

/-- Embeds `pathlib.Path(p).exists()` for the directory probes of
`find_valid_backups` (backup roots are directories). -/
def dirExists (fs : FS) (p : String) : Bool :=
  fs.dirs.any (fun d => decide (d = p))

/-- Embeds `os.scandir(bp)`: the regular files that are immediate children of the
directory. -/
def scanDirFiles (fs : FS) (bp : String) : List (String × List Nat) :=
  fs.files.filter (fun e =>
    strStartsWith e.1 (bp ++ "/") &&
      !((e.1.data.drop (bp.data.length + 1)).contains '/'))

/-- Embeds `generate_checksum(db.DVFile(path=..., size=...), db)` as used by the
probe phases: construct the candidate record, then checksum and persist
it. -/
def probeCandidate (st : Store) (fs : FS) (p : String) (size : Option Nat) :
    Except Err (DVFile × Store) :=
  match mkDVFile fs p none size with
  | .error e => .error e
  | .ok c => sGenerateChecksum st fs c

/-- The size-scan phase of `find_valid_backups` over a directory's
entries: each regular file whose size equals the subject's is checksummed,
classified, and accepted when the comparison is VALID_COPY_RENAMED or
VALID_COPY_SAME_NAME. -/
def scanFold (fs : FS) (subject : DVFile) :
    List (String × List Nat) → List DVFile → Store → Except Err (List DVFile × Store)
  | [], bs, st => .ok (bs, st)
  | (p, content) :: rest, bs, st =>
    if some content.length = subject.size then
      match probeCandidate st fs p subject.size with
      | .error e => .error e
      | .ok (cand, st1) =>
        if ([(22 : Int), 21].contains (fileEq subject cand)) then
          scanFold fs subject rest (bsAdd bs cand) st1
        else scanFold fs subject rest bs st1
    else scanFold fs subject rest bs st

/-- One backup root of the probe loop of `find_valid_backups`: skip
unreachable roots, probe the exact mirrored relative path (a VALID_COPY hit
there continues to the next root), otherwise scan the root's immediate
children by size. -/
def probeOne (fs : FS) (subject : DVFile) (bp : String) (bs : List DVFile)
    (st : Store) : Except Err (List DVFile × Store) :=
  if !dirExists fs bp then .ok (bs, st)
  else
    let tryPath := bp ++ "/" ++ relativePath subject
    match (if fileExists fs tryPath then
        (match probeCandidate st fs tryPath none with
        | .error e => .error e
        | .ok (cand, st1) =>
          if ([(22 : Int), 21].contains (fileEq subject cand)) then
            .ok (bsAdd bs cand, st1, true)
          else .ok (bs, st1, false))
      else .ok (bs, st, false) : Except Err (List DVFile × Store × Bool)) with
    | .error e => .error e
    | .ok (bs1, st1, skipScan) =>
      if skipScan then .ok (bs1, st1)
      else if !dirExists fs bp then .ok (bs1, st1)
      else scanFold fs subject (scanDirFiles fs bp) bs1 st1

/-- The probe loop over every backup root. -/
def probeAll (fs : FS) (subject : DVFile) :
    List String → List DVFile → Store → Except Err (List DVFile × Store)
  | [], bs, st => .ok (bs, st)
  | bp :: rest, bs, st =>
    match probeOne fs subject bp bs st with
    | .error e => .error e
    | .ok (bs1, st1) => probeAll fs subject rest bs1 st1

/-- Embeds `strategies.find_valid_backups(subject, db, backup_paths)`.  An empty
`backup_paths` argument falls back to the session-resolved default roots
(`defaults`, computed by the external SessionLocator collaborator —
lims/npexp/z-drive — and passed in here); a provided list is de-duplicated
(Python routes it through a `set`).  Then: assert the roots' session
folders agree with the subject's, ensure the subject's checksum, report
(only) invalid copies, collect stored VALID_COPY matches rooted under a
backup root, and if none, run the two-phase filesystem probe.  Returns the
backup list, or `None` when it is empty. -/
def sFindValidBackups (st : Store) (fs : FS) (subject : DVFile)
    (bps0 defaults : List String) : Except Err (Option (List DVFile) × Store) :=
  let bps := if bps0 = [] then defaults else bps0.dedup
  if !(bps.all fun bp =>
      match sessionFolderOf bp with
      | some fo => decide (fo = subject.session_folder)
      | none => true) then .error .pathsAssert
  else
    match sEnsureChecksum st fs subject with
    | .error e => .error e
    | .ok (s1, st1) =>
      let _invalid := sFindInvalidCopiesInDb st1 s1
      let found := sFindValidCopiesInDb st1 s1
      let bs0 := match found with
        | some ms => ms.foldl (fun acc m =>
            if bps.any (fun bp => strStartsWith m.path bp) then bsAdd acc m
            else acc) []
        | none => []
      if bs0 ≠ [] then .ok (some bs0, st1)
      else
        match probeAll fs s1 bps [] st1 with
        | .error e => .error e
        | .ok (bs1, st2) => .ok ((if bs1 = [] then none else some bs1), st2)

/-- Embeds `Path.unlink`: remove the file. -/
def fsUnlink (fs : FS) (p : String) : FS :=
  { fs with files := fs.files.filter (fun e => !decide (e.1 = p)) }

/-- Embeds `strategies.delete_if_valid_backup_in_db(subject, db, backup_paths)`:
ensure the subject's checksum, find valid backups, and — only when some
were found — re-verify literal checksum and size equality against the
first backup (raising on mismatch), consult the deletion-policy veto
(modelled from the spec: the raw-probe-data clause, an external
DeletionPolicy collaborator), then unlink the subject, returning its size;
a PermissionError on the unlink is caught and 0 is returned.  The result
carries the reclaimed bytes, the store, the filesystem, and the list of
unlinked paths. -/
def sDeleteIfValidBackupInDb (st : Store) (fs : FS) (subject : DVFile)
    (bps0 defaults : List String) (veto : DVFile → Bool) :
    Except Err (Option Nat × Store × FS × List String) :=
  match sEnsureChecksum st fs subject with
  | .error e => .error e
  | .ok (s1, st1) =>
    match sFindValidBackups st1 fs s1 bps0 defaults with
    | .error e => .error e
    | .ok (none, st2) => .ok (some 0, st2, fs, [])
    | .ok (some [], st2) => .ok (some 0, st2, fs, [])
    | .ok (some (b0 :: _), st2) =>
      if s1.checksum ≠ b0.checksum ∨ s1.size ≠ b0.size then .error .backupAssert
      else if veto s1 then .ok (some 0, st2, fs, [])
      else if fs.locked.any (fun p => decide (p = s1.path)) then
        .ok (some 0, st2, fs, [])
      else
        match fsLookup fs.files s1.path with
        | none => .error .fileNotFound
        | some _ => .ok (s1.size, st2, fsUnlink fs s1.path, [s1.path])

/-- C1: for every subject record, store state, filesystem, backup roots and
deletion policy, `delete_if_valid_backup_in_db` (a) never unlinks the
subject when `find_valid_backups` returns empty — it returns 0, the
filesystem is untouched and nothing is deleted — and (b) whenever it does
unlink the subject (the deleted-paths list is non-empty), the deleted path
is the (checksum-ensured) subject's path, the returned byte count is its
size, and the subject's checksum and size are literally equal to the
checksum and size of the chosen backup record `find_valid_backups`
produced first. -/
theorem delete_if_valid_backup_safe (st : Store) (fs : FS) (subject : DVFile)
    (bps0 defaults : List String) (veto : DVFile → Bool) :
    (∀ s1 st1 st2, sEnsureChecksum st fs subject = .ok (s1, st1) →
      sFindValidBackups st1 fs s1 bps0 defaults = .ok (none, st2) →
      sDeleteIfValidBackupInDb st fs subject bps0 defaults veto =
        .ok (some 0, st2, fs, [])) ∧
    (∀ v st2 fs2 del,
      sDeleteIfValidBackupInDb st fs subject bps0 defaults veto =
        .ok (v, st2, fs2, del) →
      del ≠ [] →
      ∃ s1 st1 b0 bs,
        sEnsureChecksum st fs subject = .ok (s1, st1) ∧
        sFindValidBackups st1 fs s1 bps0 defaults = .ok (some (b0 :: bs), st2) ∧
        del = [s1.path] ∧ v = s1.size ∧
        s1.checksum = b0.checksum ∧ s1.size = b0.size) := by
  constructor
  · intro s1 st1 st2 h1 h2
    simp [sDeleteIfValidBackupInDb, h1, h2]
  · intro v st2 fs2 del hrun hdel
    cases h1 : sEnsureChecksum st fs subject with
    | error e => simp [sDeleteIfValidBackupInDb, h1] at hrun
    | ok p1 =>
      obtain ⟨s1, st1⟩ := p1
      cases h2 : sFindValidBackups st1 fs s1 bps0 defaults with
      | error e => simp [sDeleteIfValidBackupInDb, h1, h2] at hrun
      | ok p2 =>
        obtain ⟨backs, stx⟩ := p2
        cases backs with
        | none =>
          simp [sDeleteIfValidBackupInDb, h1, h2] at hrun
          exact absurd hrun.2.2.2 hdel
        | some bs =>
          cases bs with
          | nil =>
            simp [sDeleteIfValidBackupInDb, h1, h2] at hrun
            exact absurd hrun.2.2.2 hdel
          | cons b0 rest =>
            simp only [sDeleteIfValidBackupInDb, h1, h2] at hrun
            by_cases hchk : s1.checksum ≠ b0.checksum ∨ s1.size ≠ b0.size
            · rw [if_pos hchk] at hrun
              simp at hrun
            · rw [if_neg hchk] at hrun
              push_neg at hchk
              by_cases hveto : veto s1 = true
              · rw [if_pos hveto] at hrun
                simp at hrun
                exact absurd hrun.2.2.2 hdel
              · rw [if_neg hveto] at hrun
                by_cases hlock : fs.locked.any (fun p => decide (p = s1.path)) = true
                · rw [if_pos hlock] at hrun
                  simp at hrun
                  exact absurd hrun.2.2.2 hdel
                · rw [if_neg hlock] at hrun
                  cases h3 : fsLookup fs.files s1.path with
                  | none =>
                    rw [h3] at hrun
                    simp at hrun
                  | some c =>
                    rw [h3] at hrun
                    simp only [Except.ok.injEq, Prod.mk.injEq] at hrun
                    obtain ⟨hv, hst, hfs, hdel2⟩ := hrun
                    exact ⟨s1, st1, b0, rest, rfl, by rw [← hst]; exact h2,
                      hdel2.symm, hv.symm, hchk.1, hchk.2⟩

/-- Witness for C1 at a concrete run: a checksummed subject, an empty
store, and an unreachable backup root, so `find_valid_backups` comes back
empty and the delete call returns 0 having removed nothing. -/
theorem delete_if_valid_backup_safe_witness :
    sEnsureChecksum [] ⟨[("//x/1_2_3/f.bin", [0])], [], []⟩
        ⟨"//x/1_2_3/f.bin", "f.bin", "1", "1_2_3", some 1, some "AAAAAAAA"⟩ =
      .ok (⟨"//x/1_2_3/f.bin", "f.bin", "1", "1_2_3", some 1,
        some "AAAAAAAA"⟩, []) ∧
    sFindValidBackups [] ⟨[("//x/1_2_3/f.bin", [0])], [], []⟩
        ⟨"//x/1_2_3/f.bin", "f.bin", "1", "1_2_3", some 1, some "AAAAAAAA"⟩
        ["//backup/1_2_3"] [] = .ok (none, []) ∧
    sDeleteIfValidBackupInDb [] ⟨[("//x/1_2_3/f.bin", [0])], [], []⟩
        ⟨"//x/1_2_3/f.bin", "f.bin", "1", "1_2_3", some 1, some "AAAAAAAA"⟩
        ["//backup/1_2_3"] [] (fun _ => false) =
      .ok (some 0, [], ⟨[("//x/1_2_3/f.bin", [0])], [], []⟩, []) :=
  ⟨by decide, by decide,
    (delete_if_valid_backup_safe [] ⟨[("//x/1_2_3/f.bin", [0])], [], []⟩
      ⟨"//x/1_2_3/f.bin", "f.bin", "1", "1_2_3", some 1, some "AAAAAAAA"⟩
      ["//backup/1_2_3"] [] (fun _ => false)).1
      ⟨"//x/1_2_3/f.bin", "f.bin", "1", "1_2_3", some 1, some "AAAAAAAA"⟩
      [] [] (by decide) (by decide)⟩

end NpDataValidation
